import Mathlib

/-!
Shallow embedding of `src/src/money.py` (Fowler Money pattern).

Python dynamic values that can reach the Money operators are modelled by
the inductive type `Value`; Python exceptions by `PyErr`.  Python floats
are idealised as exact rationals (`ℚ`): true division of integers, the
`Decimal`-based rounding in `__round__`, and the builtin `round` (which
rounds half to even) are modelled over `ℚ`.  Fallible operations return
`Except PyErr _`.
-/

/-- Errors raised by the Money code: `ValueError(msg)` from the two assert
helpers and the constructors, `ZeroDivisionError` from the division
operators, and `decimal.InvalidOperation` escaping from
`Decimal(...)` inside `from_string`. -/
inductive PyErr where
  | valueError (msg : String)
  | zeroDivisionError
  | decimalInvalidOperation
deriving DecidableEq, Repr

/-- A Money instance: immutable wrapper around an integer amount of minor
units (the `currency` field is the constant string "USD" and plays no role
in any operation, so it is omitted from the state). -/
structure Money where
  amount : ℤ
deriving DecidableEq, Repr

/-- Python runtime values that the operators dispatch on via `isinstance`:
a Money instance, an `int`, a `float` (idealised as an exact rational),
a `str`, or any other object. -/
inductive Value where
  | vmoney (m : Money)
  | vint (n : ℤ)
  | vfloat (q : ℚ)
  | vstr (s : String)
  | vother
deriving DecidableEq, Repr

/-- A Python number (`int` or `float`), used where the code produces a raw
numeric intermediate whose runtime type matters (for example
`int // float` is a `float` in Python). -/
inductive PyNum where
  | pint (n : ℤ)
  | pfloat (q : ℚ)
deriving DecidableEq, Repr

/-- View a Python number as a runtime value. -/
def PyNum.toValue : PyNum → Value
  | .pint n => .vint n
  | .pfloat q => .vfloat q

/-- Round half to even on an exact rational: the rounding performed by
Python's builtin `round` on a float and by `Decimal.quantize` with
`ROUND_HALF_EVEN`. -/
def roundHalfEven (q : ℚ) : ℤ :=
  if q - ⌊q⌋ < 1/2 then ⌊q⌋
  else if q - ⌊q⌋ > 1/2 then ⌊q⌋ + 1
  else if ⌊q⌋ % 2 = 0 then ⌊q⌋ else ⌊q⌋ + 1

/-- Python's builtin one-argument `round`: the identity on an `int`,
round half to even on a `float`. It always returns an `int`. -/
def pyRound : PyNum → ℤ
  | .pint n => n
  | .pfloat q => roundHalfEven q

/-- Money.__assert_amount: raises `ValueError("Amount must be an integer")`
unless the argument is an `int`. -/
def assertAmount (v : Value) : Except PyErr Unit :=
  match v with
  | .vint _ => .ok ()
  | _ => .error (.valueError "Amount must be an integer")

/-- Money.__assert_operand: raises
`ValueError("Operand must be a numeric value")` unless the argument is an
`int` or a `float`. -/
def assertOperand (v : Value) : Except PyErr Unit :=
  match v with
  | .vint _ => .ok ()
  | .vfloat _ => .ok ()
  | _ => .error (.valueError "Operand must be a numeric value")

/-- Money.__init__ (the class constructor `Money(amount)` /
`self.__class__(amount)`): asserts the argument is an `int` and stores it. -/
def mkMoney (v : Value) : Except PyErr Money :=
  match assertAmount v, v with
  | .ok _, .vint n => .ok ⟨n⟩
  | _, _ => .error (.valueError "Amount must be an integer")

/-- Money.__int__ (spec name `to_integer`): returns the amount unchanged. -/
def Money.to_integer (m : Money) : ℤ :=
  m.amount

/-- Money.__add__: a Money operand adds amounts; otherwise
`__assert_amount` admits only an `int`, which is added directly.  Both
branches rebuild through the constructor. -/
def Money.add (m : Money) (other : Value) : Except PyErr Money :=
  match other with
  | .vmoney o => mkMoney (.vint (m.amount + o.amount))
  | .vint n => mkMoney (.vint (m.amount + n))
  | _ => .error (.valueError "Amount must be an integer")

/-- Money.__sub__: a Money operand subtracts amounts; otherwise
`__assert_amount` admits only an `int`, which is subtracted directly. -/
def Money.sub (m : Money) (other : Value) : Except PyErr Money :=
  match other with
  | .vmoney o => mkMoney (.vint (m.amount - o.amount))
  | .vint n => mkMoney (.vint (m.amount - n))
  | _ => .error (.valueError "Amount must be an integer")

/-- Money.__mul__: `__assert_operand` admits `int` and `float`; the result
is `Money(round(self.amount * factor))`, where `self.amount * factor` is
an `int` for an `int` factor and a `float` for a `float` factor. -/
def Money.mul (m : Money) (factor : Value) : Except PyErr Money :=
  match factor with
  | .vint k => mkMoney (.vint (pyRound (.pint (m.amount * k))))
  | .vfloat f => mkMoney (.vint (pyRound (.pfloat ((m.amount : ℚ) * f))))
  | _ => .error (.valueError "Operand must be a numeric value")

/-- Money.__rmul__: delegates to `__mul__`. -/
def Money.rmul (m : Money) (factor : Value) : Except PyErr Money :=
  Money.mul m factor

/-- Money.__truediv__: for a Money divisor, after the zero check it
returns the raw Python number `round(self.amount / other.amount)` (an
`int`, not a Money); for a numeric divisor, after `__assert_operand` and
the zero check it returns `Money(round(self.amount / other))`.
Python `/` on integers yields a float, idealised as the exact rational
quotient. -/
def Money.truediv (m : Money) (other : Value) : Except PyErr Value :=
  match other with
  | .vmoney o =>
      if o.amount = 0 then .error .zeroDivisionError
      else .ok ((PyNum.pint (pyRound (.pfloat ((m.amount : ℚ) / (o.amount : ℚ))))).toValue)
  | .vint k =>
      if k = 0 then .error .zeroDivisionError
      else (mkMoney (.vint (pyRound (.pfloat ((m.amount : ℚ) / (k : ℚ)))))).map .vmoney
  | .vfloat f =>
      if f = 0 then .error .zeroDivisionError
      else (mkMoney (.vint (pyRound (.pfloat ((m.amount : ℚ) / f))))).map .vmoney
  | _ => .error (.valueError "Operand must be a numeric value")

/-- Money.__floordiv__: for a Money divisor, after the zero check it
returns the raw Python int `self.amount // other.amount` (floor division,
NOT wrapped in a Money); for an `int` divisor it returns
`Money(self.amount // other)`; for a `float` divisor, Python
`int // float` is a float, which is passed to the constructor. -/
def Money.floordiv (m : Money) (other : Value) : Except PyErr Value :=
  match other with
  | .vmoney o =>
      if o.amount = 0 then .error .zeroDivisionError
      else .ok ((PyNum.pint (Int.fdiv m.amount o.amount)).toValue)
  | .vint k =>
      if k = 0 then .error .zeroDivisionError
      else (mkMoney ((PyNum.pint (Int.fdiv m.amount k)).toValue)).map .vmoney
  | .vfloat f =>
      if f = 0 then .error .zeroDivisionError
      else (mkMoney ((PyNum.pfloat ((⌊(m.amount : ℚ) / f⌋ : ℤ) : ℚ)).toValue)).map .vmoney
  | _ => .error (.valueError "Operand must be a numeric value")

/-- Money.__eq__: a Money operand compares amounts; otherwise
`__assert_amount` admits only an `int`, which is compared with the
amount. -/
def Money.eq (m : Money) (other : Value) : Except PyErr Bool :=
  match other with
  | .vmoney o => .ok (decide (m.amount = o.amount))
  | .vint n => .ok (decide (m.amount = n))
  | _ => .error (.valueError "Amount must be an integer")

/-- Money.__round__: `Decimal(self.amount / 100)` (float true division,
idealised as the exact rational) quantized to a whole number with
`ROUND_HALF_EVEN`, cast to `int` and scaled back by 100. -/
def Money.roundMajor (m : Money) : Money :=
  let decimal_value : ℚ := (m.amount : ℚ) / 100
  let quantized_value : ℤ := roundHalfEven decimal_value
  ⟨quantized_value * 100⟩

/-- Money.from_float: rejects a non-float with
`ValueError("Amount must be a float")`, otherwise builds
`Money(floor(amount * 100))`. -/
def Money.from_float (v : Value) : Except PyErr Money :=
  match v with
  | .vfloat q => mkMoney (.vint ⌊q * 100⌋)
  | _ => .error (.valueError "Amount must be a float")

/-- Characters kept by the regex substitution in `from_string`:
digits and the decimal point. -/
def keptChar (c : Char) : Bool :=
  c.isDigit || c = '.'

/-- The cleaning step of `from_string`: `sub(r'[^\d.]', '', s)` drops every
character that is not a digit or a decimal point. -/
def stripNonDecimal (s : String) : List Char :=
  s.data.filter keptChar

/-- Numeric value of a digit string. -/
def digitsVal (l : List Char) : ℕ :=
  l.foldl (fun a c => 10 * a + (c.toNat - 48)) 0

/-- The `Decimal(text)` constructor, restricted to the digit/dot alphabet
that the cleaning step produces: it accepts `digits`, `digits.digits`,
`digits.` and `.digits` (at least one digit, at most one dot) and returns
the exact decimal value; anything else (empty string, two dots, a stray
character) raises `decimal.InvalidOperation`, modelled as `none`. -/
def parsePyDecimal (l : List Char) : Option ℚ :=
  match l.splitOn '.' with
  | [ip] =>
      if !ip.isEmpty && ip.all Char.isDigit then
        some ((digitsVal ip : ℚ))
      else none
  | [ip, fp] =>
      if !(ip ++ fp).isEmpty && ip.all Char.isDigit && fp.all Char.isDigit then
        some ((digitsVal ip : ℚ) + (digitsVal fp : ℚ) / (10 : ℚ) ^ fp.length)
      else none
  | _ => none

/-- Money.from_string: rejects a non-string with
`ValueError("Amount must be a string")`; otherwise cleans the string,
parses it with `Decimal` (whose parse failure escapes unhandled), converts
the exact value to a float (idealised as the identity on `ℚ`) and
delegates to `from_float`. -/
def Money.from_string (v : Value) : Except PyErr Money :=
  match v with
  | .vstr s =>
      match parsePyDecimal (stripNonDecimal s) with
      | some q => Money.from_float (.vfloat q)
      | none => .error .decimalInvalidOperation
  | _ => .error (.valueError "Amount must be a string")

/-- The spec's `InvalidAmount` error kind: the `ValueError`s raised by the
constructor and parser type assertions. -/
def isInvalidAmount : PyErr → Bool
  | .valueError m =>
      m = "Amount must be an integer" || m = "Amount must be a float" ||
        m = "Amount must be a string"
  | _ => false

/-- The spec's `InvalidOperand` error kind: the `ValueError` raised by
`__assert_operand`. -/
def isInvalidOperand : PyErr → Bool
  | .valueError m => m = "Operand must be a numeric value"
  | _ => false

/-- The spec's `DivisionByZero` error kind: `ZeroDivisionError`. -/
def isDivisionByZero : PyErr → Bool
  | .zeroDivisionError => true
  | _ => false

/-- Whether a division result is an error of the `DivisionByZero` kind. -/
def raisedDivZero : Except PyErr Value → Bool
  | .error .zeroDivisionError => true
  | _ => false

/-- Whether a division result successfully produced a Money instance. -/
def isMoneyResult : Except PyErr Value → Bool
  | .ok (.vmoney _) => true
  | _ => false

/-- Whether a divisor value is exactly zero (a number equal to 0 or a
Money of amount 0). -/
def isZeroDivisor : Value → Bool
  | .vint k => decide (k = 0)
  | .vfloat q => decide (q = 0)
  | .vmoney o => decide (o.amount = 0)
  | _ => false

/-- Whether a runtime value is a Money instance. -/
def isMoneyVal : Value → Bool
  | .vmoney _ => true
  | _ => false

/-- Whether a runtime value is an `int`. -/
def isIntVal : Value → Bool
  | .vint _ => true
  | _ => false

/-- Whether a runtime value is a `str`. -/
def isStrVal : Value → Bool
  | .vstr _ => true
  | _ => false

/-- Round half to even is the identity on integers. -/
lemma roundHalfEven_intCast (n : ℤ) : roundHalfEven (n : ℚ) = n := by
  simp [roundHalfEven, Int.floor_intCast]

/-- Round half to even lands within a half of its argument. -/
lemma abs_roundHalfEven_sub_le (q : ℚ) : |(roundHalfEven q : ℚ) - q| ≤ 1/2 := by
  have h1 : (⌊q⌋ : ℚ) ≤ q := Int.floor_le q
  have h2 : q < ⌊q⌋ + 1 := Int.lt_floor_add_one q
  unfold roundHalfEven
  split_ifs with ha hb hc <;>
    rw [abs_le] <;> push_neg at * <;> constructor <;> push_cast <;> linarith

/-- C2: the claim says floor_divide accepts a float divisor like
true_divide and returns a Money; in the code `self.amount // other` with a
float divisor is a Python float, and the constructor
`self.__class__(...)` then raises `ValueError("Amount must be an
integer")` — so floor division by ANY nonzero float raises the
InvalidAmount error instead of producing a Money, while true division by
the same float succeeds. -/
theorem C2_floordiv_float_always_raises (m : Money) (f : ℚ) (hf : f ≠ 0) :
    Money.floordiv m (.vfloat f) = .error (.valueError "Amount must be an integer") ∧
    isInvalidAmount (.valueError "Amount must be an integer") = true ∧
    Money.truediv m (.vfloat f) =
      .ok (.vmoney ⟨roundHalfEven ((m.amount : ℚ) / f)⟩) := by
  refine ⟨?_, rfl, ?_⟩ <;>
    simp [Money.floordiv, Money.truediv, hf, mkMoney, assertAmount, PyNum.toValue,
      Except.map, pyRound]

/-- C2 witness: floor division of Money(1000) by the float 10.0 raises the
InvalidAmount ValueError, while true division succeeds. -/
theorem C2_floordiv_float_always_raises_witness :
    (10 : ℚ) ≠ 0 ∧
    (Money.floordiv ⟨1000⟩ (.vfloat 10) = .error (.valueError "Amount must be an integer") ∧
     isInvalidAmount (.valueError "Amount must be an integer") = true ∧
     Money.truediv ⟨1000⟩ (.vfloat 10) =
       .ok (.vmoney ⟨roundHalfEven ((((⟨1000⟩ : Money).amount : ℚ)) / 10)⟩)) :=
  ⟨by norm_num, C2_floordiv_float_always_raises ⟨1000⟩ 10 (by norm_num)⟩

/-- C3 counterexample: the claim says Money(1000) + 10.0 raises the
InvalidOperand error kind; in the code `__add__` calls `__assert_amount`
on a non-Money operand, so the error raised is
`ValueError("Amount must be an integer")`, which is the InvalidAmount
kind and not the InvalidOperand kind. -/
theorem C3_cex_add_float_error_kind :
    Money.add ⟨1000⟩ (.vfloat 10) = .error (.valueError "Amount must be an integer") ∧
    Money.sub ⟨1000⟩ (.vfloat 10) = .error (.valueError "Amount must be an integer") ∧
    isInvalidOperand (.valueError "Amount must be an integer") = false :=
  ⟨rfl, rfl, rfl⟩

/-- C3 amended: add and subtract reject every float operand by raising the
InvalidAmount error kind (the ValueError of `__assert_amount`, message
"Amount must be an integer"), not the InvalidOperand kind. -/
theorem C3_add_sub_float_invalid_amount (m : Money) (f : ℚ) :
    Money.add m (.vfloat f) = .error (.valueError "Amount must be an integer") ∧
    Money.sub m (.vfloat f) = .error (.valueError "Amount must be an integer") ∧
    isInvalidAmount (.valueError "Amount must be an integer") = true ∧
    isInvalidOperand (.valueError "Amount must be an integer") = false :=
  ⟨rfl, rfl, rfl, rfl⟩

/-- C7: adding and then subtracting the same plain integer (and the other
way round) returns to the original Money, both as Lean equality of the
results and under the code's own `__eq__`. -/
theorem C7_add_sub_roundtrip (m : Money) (k : ℤ) :
    ((Money.add m (.vint k)).bind fun r => Money.sub r (.vint k)) = .ok m ∧
    ((Money.sub m (.vint k)).bind fun r => Money.add r (.vint k)) = .ok m ∧
    ((Money.add m (.vint k)).bind fun r =>
      (Money.sub r (.vint k)).bind fun r2 => Money.eq r2 (.vmoney m)) = .ok true ∧
    ((Money.sub m (.vint k)).bind fun r =>
      (Money.add r (.vint k)).bind fun r2 => Money.eq r2 (.vmoney m)) = .ok true := by
  obtain ⟨a⟩ := m
  refine ⟨?_, ?_, ?_, ?_⟩ <;>
    simp [Money.add, Money.sub, Money.eq, mkMoney, assertAmount, Except.bind]

/-- C8: multiplication by a plain integer factor, in both operand orders
(`__rmul__` delegates to `__mul__`), returns a Money whose amount is the
exact product; the round-half-even step is the identity on the integer
product, so no rounding occurs. -/
theorem C8_mul_int_exact (m : Money) (k : ℤ) :
    Money.mul m (.vint k) = .ok ⟨m.amount * k⟩ ∧
    Money.rmul m (.vint k) = .ok ⟨m.amount * k⟩ ∧
    roundHalfEven ((m.amount * k : ℤ) : ℚ) = m.amount * k :=
  ⟨rfl, rfl, roundHalfEven_intCast _⟩

/-- C9: comparing a Money for equality with an operand that is neither a
Money nor an int does not return a boolean: `__eq__` falls through to
`__assert_amount`, which raises the InvalidAmount ValueError
("Amount must be an integer"). -/
theorem C9_eq_non_money_non_int_raises (m : Money) (v : Value)
    (hm : isMoneyVal v = false) (hi : isIntVal v = false) :
    Money.eq m v = .error (.valueError "Amount must be an integer") ∧
    isInvalidAmount (.valueError "Amount must be an integer") = true := by
  refine ⟨?_, rfl⟩
  cases v <;> simp_all [Money.eq, isMoneyVal, isIntVal]

/-- C9 witness: equality of Money(1000) against the float 10.0 (and the
instantiated conclusion) at a concrete non-Money, non-int operand. -/
theorem C9_eq_non_money_non_int_raises_witness :
    isMoneyVal (.vfloat 10) = false ∧ isIntVal (.vfloat 10) = false ∧
    (Money.eq ⟨1000⟩ (.vfloat 10) = .error (.valueError "Amount must be an integer") ∧
     isInvalidAmount (.valueError "Amount must be an integer") = true) :=
  ⟨rfl, rfl, C9_eq_non_money_non_int_raises ⟨1000⟩ (.vfloat 10) rfl rfl⟩

/-- Bound used for C4: the result of Money.__round__ is within 50 minor
units of the original amount. -/
lemma roundMajor_close (a : ℤ) : |roundHalfEven ((a : ℚ) / 100) * 100 - a| ≤ 50 := by
  have h := abs_roundHalfEven_sub_le ((a : ℚ) / 100)
  rw [← Int.cast_le (R := ℚ)]
  push_cast
  rw [abs_le] at h ⊢
  constructor <;> [linarith [h.1]; linarith [h.2]]

/-- C1 counterexample: the claim says floor division of one Money by
another returns a new Money; at Money(1000) // Money(3) the code executes
`return self.amount // other.amount` without wrapping in
`self.__class__`, so the result is the plain int 333, not a Money. -/
theorem C1_cex_floordiv_money_not_money :
    Money.floordiv ⟨1000⟩ (.vmoney ⟨3⟩) = .ok (.vint 333) ∧
    isMoneyResult (Money.floordiv ⟨1000⟩ (.vmoney ⟨3⟩)) = false ∧
    Money.truediv ⟨1000⟩ (.vmoney ⟨3⟩) = .ok (.vint 333) := by
  refine ⟨rfl, rfl, ?_⟩
  have h : roundHalfEven ((1000 : ℚ) / 3) = 333 := by
    norm_num [roundHalfEven]
  simp [Money.truediv, pyRound, PyNum.toValue, h]

/-- C1 amended: for Money divided by Money with nonzero divisor amount,
BOTH operators return raw Python numbers, never a Money: true division
returns the round-half-even of the exact quotient, floor division returns
the plain floor quotient int (the asymmetry between the two is in the
rounding, not in the return type). -/
theorem C1_div_money_raw_results (m o : Money) (ho : o.amount ≠ 0) :
    Money.truediv m (.vmoney o) =
      .ok (.vint (roundHalfEven ((m.amount : ℚ) / (o.amount : ℚ)))) ∧
    Money.floordiv m (.vmoney o) = .ok (.vint (Int.fdiv m.amount o.amount)) ∧
    isMoneyResult (Money.truediv m (.vmoney o)) = false ∧
    isMoneyResult (Money.floordiv m (.vmoney o)) = false := by
  simp [Money.truediv, Money.floordiv, ho, PyNum.toValue, pyRound, isMoneyResult]

/-- C1 witness: the amended statement instantiated at Money(1000) and
Money(3). -/
theorem C1_div_money_raw_results_witness :
    (Money.mk 3).amount ≠ 0 ∧
    (Money.truediv ⟨1000⟩ (.vmoney ⟨3⟩) =
       .ok (.vint (roundHalfEven (((Money.mk 1000).amount : ℚ) / ((Money.mk 3).amount : ℚ)))) ∧
     Money.floordiv ⟨1000⟩ (.vmoney ⟨3⟩) =
       .ok (.vint (Int.fdiv (Money.mk 1000).amount (Money.mk 3).amount)) ∧
     isMoneyResult (Money.truediv ⟨1000⟩ (.vmoney ⟨3⟩)) = false ∧
     isMoneyResult (Money.floordiv ⟨1000⟩ (.vmoney ⟨3⟩)) = false) :=
  ⟨by norm_num, C1_div_money_raw_results ⟨1000⟩ ⟨3⟩ (by norm_num)⟩

/-- C4: Money.__round__ always yields an amount that is a multiple of
100, equal to the round-half-even rounding of amount/100 scaled back to
minor units, and within half a major unit (50 minor units) of the
original amount; the boundary examples of the spec hold:
round(Money(1001)) = Money(1000) and round(Money(1051)) = Money(1100). -/
theorem C4_round_half_even_major (m : Money) :
    (100 : ℤ) ∣ (Money.roundMajor m).amount ∧
    (Money.roundMajor m).amount = roundHalfEven ((m.amount : ℚ) / 100) * 100 ∧
    |(Money.roundMajor m).amount - m.amount| ≤ 50 ∧
    Money.roundMajor ⟨1001⟩ = ⟨1000⟩ ∧
    Money.roundMajor ⟨1051⟩ = ⟨1100⟩ ∧
    Money.roundMajor ⟨1050⟩ = ⟨1000⟩ ∧
    Money.roundMajor ⟨1150⟩ = ⟨1200⟩ := by
  refine ⟨⟨roundHalfEven ((m.amount : ℚ) / 100), mul_comm _ _⟩, rfl, roundMajor_close m.amount,
    ?_, ?_, ?_, ?_⟩ <;>
  · simp only [Money.roundMajor, Money.mk.injEq]
    norm_num [roundHalfEven]

/-- C5: a division operator raises ZeroDivisionError exactly when the
divisor is zero (a plain number equal to 0 or a Money of amount 0),
for both true division and floor division and every possible right
operand; since the result type is an exclusive sum of error and value, no
Money is produced on that error. -/
theorem C5_div_zero_iff (m : Money) (v : Value) :
    raisedDivZero (Money.truediv m v) = isZeroDivisor v ∧
    raisedDivZero (Money.floordiv m v) = isZeroDivisor v := by
  cases v <;>
    first
      | exact ⟨rfl, rfl⟩
      | (refine ⟨?_, ?_⟩ <;>
          simp only [Money.truediv, Money.floordiv] <;>
          split_ifs with h <;>
          simp_all [raisedDivZero, isZeroDivisor, mkMoney, assertAmount, Except.map,
            PyNum.toValue])

/-- Evaluation rule for the decimal parser when the cleaned text splits
into an integer part and a fraction part. -/
lemma parsePyDecimal_eq_of_splitOn (l ip fp : List Char)
    (hs : l.splitOn '.' = [ip, fp])
    (hc : (!(ip ++ fp).isEmpty && ip.all Char.isDigit && fp.all Char.isDigit) = true) :
    parsePyDecimal l =
      some ((digitsVal ip : ℚ) + (digitsVal fp : ℚ) / (10 : ℚ) ^ fp.length) := by
  unfold parsePyDecimal
  rw [hs]
  show (if (!(ip ++ fp).isEmpty && ip.all Char.isDigit && fp.all Char.isDigit) = true then
      some ((digitsVal ip : ℚ) + (digitsVal fp : ℚ) / (10 : ℚ) ^ fp.length)
    else none) = _
  rw [if_pos hc]

/-- C6: the cleaning step of from_string drops every character outside
digits and the decimal point, so a leading minus sign never changes the
parse (negative currency strings parse as positive), and grouping or
symbol characters are ignored: parsing "$6,150,593.22" yields the amount
615059322. -/
theorem C6_from_string_strips_sign_and_symbols :
    (∀ s : String, Money.from_string (.vstr ("-" ++ s)) = Money.from_string (.vstr s)) ∧
    Money.from_string (.vstr "-$5.00") = Money.from_string (.vstr "$5.00") ∧
    (Money.from_string (.vstr "$6,150,593.22")).map Money.to_integer = .ok 615059322 := by
  have hminus : ∀ s : String,
      Money.from_string (.vstr ("-" ++ s)) = Money.from_string (.vstr s) := by
    intro s
    have h : stripNonDecimal ("-" ++ s) = stripNonDecimal s := by
      simp [stripNonDecimal, String.data_append, keptChar]
    simp only [Money.from_string, h]
  refine ⟨hminus, ?_, ?_⟩
  · have h : "-$5.00" = "-" ++ "$5.00" := by decide
    rw [h, hminus]
  · have hq := parsePyDecimal_eq_of_splitOn (stripNonDecimal "$6,150,593.22")
      ['6', '1', '5', '0', '5', '9', '3'] ['2', '2'] (by decide) (by decide)
    have hip : digitsVal ['6', '1', '5', '0', '5', '9', '3'] = 6150593 := by decide
    have hfp : digitsVal ['2', '2'] = 22 := by decide
    rw [hip, hfp] at hq
    simp only [Money.from_string, hq, Money.from_float, mkMoney, assertAmount,
      Except.map, Money.to_integer]
    norm_num

/-- C10: when from_string is given a string, the only error it can raise
is the unhandled decimal parse error (decimal.InvalidOperation), which is
none of the InvalidAmount, InvalidOperand, or DivisionByZero kinds — so
the InvalidAmount ValueError can only come from non-string inputs, which
always raise exactly it; the cleaned forms of "$" (empty) and "1.2.3"
(two decimal points) are invalid decimal literals and hit the unhandled
parse error. -/
theorem C10_from_string_error_kinds (s : String) (v : Value) (e : PyErr)
    (hv : isStrVal v = false)
    (he : Money.from_string (.vstr s) = .error e) :
    e = .decimalInvalidOperation ∧
    isInvalidAmount e = false ∧ isInvalidOperand e = false ∧ isDivisionByZero e = false ∧
    Money.from_string v = .error (.valueError "Amount must be a string") ∧
    isInvalidAmount (.valueError "Amount must be a string") = true ∧
    Money.from_string (.vstr "$") = .error .decimalInvalidOperation ∧
    Money.from_string (.vstr "1.2.3") = .error .decimalInvalidOperation := by
  have hd : e = PyErr.decimalInvalidOperation := by
    rw [Money.from_string] at he
    rcases hp : parsePyDecimal (stripNonDecimal s) with _ | q
    · rw [hp] at he
      exact (Except.error.injEq _ _).mp he.symm
    · rw [hp] at he
      simp [Money.from_float, mkMoney, assertAmount] at he
  subst hd
  refine ⟨rfl, rfl, rfl, rfl, ?_, rfl, rfl, rfl⟩
  cases v <;> simp_all [Money.from_string, isStrVal]

/-- C10 witness: the statement instantiated at the string input "$" (whose
cleaned form is empty) and the non-string input 10.0. -/
theorem C10_from_string_error_kinds_witness :
    isStrVal (.vfloat 10) = false ∧
    Money.from_string (.vstr "$") = .error .decimalInvalidOperation ∧
    (PyErr.decimalInvalidOperation = .decimalInvalidOperation ∧
     isInvalidAmount .decimalInvalidOperation = false ∧
     isInvalidOperand .decimalInvalidOperation = false ∧
     isDivisionByZero .decimalInvalidOperation = false ∧
     Money.from_string (.vfloat 10) = .error (.valueError "Amount must be a string") ∧
     isInvalidAmount (.valueError "Amount must be a string") = true ∧
     Money.from_string (.vstr "$") = .error .decimalInvalidOperation ∧
     Money.from_string (.vstr "1.2.3") = .error .decimalInvalidOperation) :=
  ⟨rfl, rfl, C10_from_string_error_kinds "$" (.vfloat 10) .decimalInvalidOperation rfl rfl⟩
